import Mathlib

/-!
Verification of the prompt-optimization backend (FastAPI + Supabase service).

Shallow embedding of the routines the claims concern:
  * services/improvement_loop.py  — promotion guardrails, candidate status updates
  * routers/improvements.py       — the improve route and its call into the loop
  * services/llm_client.py        — call_llm retry loop
  * routers/evaluations.py        — run_eval_task terminal-status computation
  * services/evaluation.py        — calculate_wilson_score, run_full_evaluation aggregation
  * services/prompt_utils.py      — substitute_variables
  * routers/datasets.py           — add_dataset_rows, delete_dataset_row
  * routers/prompts.py            — activate_version

Machine floats are modelled as ℚ (or ℝ where square roots occur), JSON dicts as
association lists, Supabase tables as lists of typed rows, and the fire-and-forget
LLM interaction as an explicit script of per-attempt outcomes.
-/

/-! ### Common HTTP error shape (FastAPI HTTPException) -/

structure HttpErr where
  status : Nat
  detail : String
deriving DecidableEq

/-! ### Promotion guardrails (services/improvement_loop.py, lines 185-204)

`run_improvement_loop` applies three ordered guardrails to the best candidate
only: minimum aggregate improvement 0.05, maximum format-adherence regression
0.02 below baseline, absolute format-adherence floor 0.90. -/

inductive GuardrailReason where
  | belowImprovementThreshold
  | formatRegression
  | belowFormatFloor
deriving DecidableEq

/-- The guardrail cascade of run_improvement_loop steps 8: given
`best_improvement` (candidate average minus baseline average), the candidate's
format-adherence score and the baseline's format-adherence score, returns
`none` for approval and `some r` for rejection with reason `r`.  Mirrors:
`if best_improvement < 0.05: ... elif cand_fa < base_fa - 0.02: ...
elif cand_fa < 0.9: ... else: should_promote = True`. -/
def promotion_guardrails (best_improvement cand_fa base_fa : ℚ) : Option GuardrailReason :=
  if best_improvement < 5/100 then
    some .belowImprovementThreshold
  else if cand_fa < base_fa - 2/100 then
    some .formatRegression
  else if cand_fa < 9/10 then
    some .belowFormatFloor
  else
    none

/-- Average of all metric scores (`get_avg_score` in run_improvement_loop):
sum of the score map's values divided by its size, 0 for an empty map. -/
def get_avg_score (scores : List (String × ℚ)) : ℚ :=
  if scores = [] then 0 else (scores.map Prod.snd).sum / scores.length

/-! ### The improve route (routers/improvements.py, improve_prompt)

`improve_prompt` calls `run_improvement_loop` with keyword arguments
`prompt_id, dataset_id, num_candidates, auto_promote, method,
evaluation_strategy, base_version_id` inside `try/except`, converting any
exception into an HTTP 500.  Python binds keyword arguments before the body
runs: a keyword not among the callee's parameter names raises `TypeError`. -/

/-- Parameter names of `run_improvement_loop`
(services/improvement_loop.py line 79: `prompt_id, dataset_id,
num_candidates=3, auto_promote=False, method="meta_prompting"`). -/
def run_improvement_loop_params : List String :=
  ["prompt_id", "dataset_id", "num_candidates", "auto_promote", "method"]

/-- Keyword-argument names passed by the router
(routers/improvements.py lines 20-28). -/
def improve_call_kwargs : List String :=
  ["prompt_id", "dataset_id", "num_candidates", "auto_promote", "method",
   "evaluation_strategy", "base_version_id"]

/-- Python call binding: first keyword argument that is not a parameter name
of the callee (raises `TypeError` naming it), if any. -/
def firstUnexpectedKwarg (params kwargs : List String) : Option String :=
  kwargs.find? (fun k => !(params.contains k))

/-- The dictionary run_improvement_loop would return (lines 219-228). -/
structure ImproveResult where
  baseline_scores : List (String × ℚ)
  best_candidate_content : String
  best_candidate_rationale : String
  best_candidate_scores : List (String × ℚ)
  best_improvement : ℚ
  should_promote : Bool
  rejection_reason : String
  explanation : String
  candidates_evaluated : Nat
  all_candidates : List Nat

/-- routers/improvements.py improve_prompt: binds the keyword arguments of the
call to run_improvement_loop, then (were binding to succeed) runs the loop
body, whose outcome is the parameter `loopBody`; any exception is converted to
HTTP 500 with the exception text as detail. -/
def improve_prompt (loopBody : Except String ImproveResult) : Except HttpErr ImproveResult :=
  match firstUnexpectedKwarg run_improvement_loop_params improve_call_kwargs with
  | some k => .error ⟨500, "run_improvement_loop got an unexpected keyword argument: " ++ k⟩
  | none =>
    match loopBody with
    | .ok r => .ok r
    | .error e => .error ⟨500, e⟩

/-! ### Candidate status finalization (services/improvement_loop.py, lines 230-271)

Step 6 of the loop inserts every generated-and-evaluated candidate as a row of
the `candidates` table with status `pending`.  Step 10 then updates statuses:
if `should_promote and best_candidate`, the winning candidate's row is set to
`promoted` (when `auto_promote`) or `accepted`; otherwise every stored
candidate whose id differs from the winner's stored id is set to `rejected`. -/

inductive CandStatus where
  | pending
  | accepted
  | rejected
  | promoted
deriving DecidableEq

structure CandRow where
  id : Nat
  status : CandStatus
deriving DecidableEq

/-- `supabase.table("candidates").update({"status": s}).eq("id", cid)`. -/
def updateCandStatus (table : List CandRow) (cid : Nat) (s : CandStatus) : List CandRow :=
  table.map (fun c => if c.id = cid then { c with status := s } else c)

/-- The status updates of run_improvement_loop step 10.  `table` is the
`candidates` table, `winnerId` is `best_candidate.get("candidate_id")` (none
when the winner's insert returned no data), `storedIds` are the ids of the
rows inserted for this run (`stored_candidates`), in insertion order.  The
auto-promote branch additionally writes a new prompt version and a
promotion-history row; those writes do not touch candidate statuses and are
not modelled here. -/
def improvement_loop_finalize (table : List CandRow) (winnerId : Option Nat)
    (storedIds : List Nat) (should_promote auto_promote : Bool) : List CandRow :=
  if should_promote then
    match winnerId with
    | some cid => updateCandStatus table cid (if auto_promote then .promoted else .accepted)
    | none => table
  else
    storedIds.foldl
      (fun t cid => if some cid ≠ winnerId then updateCandStatus t cid .rejected else t)
      table

/-! ### Version activation (routers/prompts.py, activate_version, lines 101-116)

The route checks the prompt exists (404 otherwise), then issues two separate
writes: deactivate every version of the prompt, then set `is_active` on the
version with the given id; if that second update matched no row it raises 404
"Version not found" — after the deactivation write has already committed. -/

structure VersionRow where
  id : Nat
  prompt_id : Nat
  is_active : Bool
deriving DecidableEq

/-- activate_version: `prompts` is the set of existing prompt ids, `versions`
the prompt_versions table.  Returns the table as left by the route's writes
together with the HTTP outcome. -/
def activate_version (prompts : List Nat) (versions : List VersionRow)
    (pid vid : Nat) : List VersionRow × Except HttpErr String :=
  if pid ∈ prompts then
    let deactivated := versions.map
      (fun r => if r.prompt_id = pid then { r with is_active := false } else r)
    let updated := deactivated.map
      (fun r => if r.id = vid then { r with is_active := true } else r)
    if (versions.filter (fun r => r.id = vid)).isEmpty then
      (updated, .error ⟨404, "Version not found"⟩)
    else
      (updated, .ok "Version activated")
  else
    (versions, .error ⟨404, "Prompt not found"⟩)

/-! ### Row deletion (routers/datasets.py, delete_dataset_row, lines 191-206)

After the dataset-existence check the route deletes samples matching both the
row id and the dataset id and returns a success message without inspecting
how many rows the delete matched. -/

structure DSampleRow where
  id : Nat
  dataset_id : Nat
deriving DecidableEq

/-- delete_dataset_row: `datasets` is the set of existing dataset ids,
`samples` the dataset_samples table. -/
def delete_dataset_row (datasets : List Nat) (samples : List DSampleRow)
    (did rid : Nat) : List DSampleRow × Except HttpErr String :=
  if did ∈ datasets then
    (samples.filter (fun s => !(s.id = rid && s.dataset_id = did)), .ok "Row deleted")
  else
    (samples, .error ⟨404, "Dataset not found"⟩)

/-! ### Evaluation engine (services/evaluation.py)

Per-example results, the Wilson confidence interval, the aggregation loop of
run_full_evaluation, and the terminal-status computation of run_eval_task
(routers/evaluations.py). -/

inductive Metric where
  | correctness
  | format_adherence
  | clarity
  | verbosity
  | safety
  | consistency
deriving DecidableEq

/-- The per-example score map built by evaluate_single_example. -/
structure Scores where
  correctness : ℚ
  format_adherence : ℚ
  clarity : ℚ
  verbosity : ℚ
  safety : ℚ
  consistency : ℚ
deriving DecidableEq

def Scores.get (s : Scores) : Metric → ℚ
  | .correctness => s.correctness
  | .format_adherence => s.format_adherence
  | .clarity => s.clarity
  | .verbosity => s.verbosity
  | .safety => s.safety
  | .consistency => s.consistency

/-- Scores recorded when an example's generation call fails
(evaluate_single_example, both except branches): every metric 0.0 except
safety 1.0. -/
def errorScores : Scores := ⟨0, 0, 0, 0, 1, 0⟩

/-- One element of run_full_evaluation's `processed_results`, one per sample
in order.  `hasError` is true for a hard-failed example: both failure paths
put an "error" key in the result dict together with a null actual_output, so
a single flag captures the "error in res" test of run_eval_task and the
"error in res and actual_output is None" test of the aggregation loop. -/
structure ExResult where
  hasError : Bool
  scores : Scores
deriving DecidableEq

/-- calculate_wilson_score (services/evaluation.py, lines 300-328), floats as
reals.  z is 1.96 for the 95% confidence level and 1.645 otherwise; for
total = 0 the code returns (0.0, 1.0) before computing anything. -/
noncomputable def calculate_wilson_score (successes total : ℕ) (confidence : ℚ) : ℝ × ℝ :=
  if total = 0 then (0, 1)
  else
    let z : ℝ := if confidence = 95/100 then 1.96 else 1.645
    let p : ℝ := (successes : ℝ) / (total : ℝ)
    let n : ℝ := (total : ℝ)
    let denominator : ℝ := 1 + z ^ 2 / n
    let center : ℝ := (p + z ^ 2 / (2 * n)) / denominator
    let spread : ℝ := z * Real.sqrt ((p * (1 - p) + z ^ 2 / (4 * n)) / n) / denominator
    (max 0 (center - spread), min 1 (center + spread))

/-- Modelled from the claim's wording (spec §4.8): Wilson 95% interval with
z = 1.96, center (p + z²/2n)/(1+z²/n), half-width
z·√((p(1−p)+z²/4n)/n)/(1+z²/n), both bounds clamped to [0,1], and exactly
(0.0, 1.0) for 0 trials.  Written to be compared against the source
definition above. -/
noncomputable def wilson_spec (successes total : ℕ) : ℝ × ℝ :=
  if total = 0 then (0, 1)
  else
    let z : ℝ := 1.96
    let p : ℝ := (successes : ℝ) / (total : ℝ)
    let n : ℝ := (total : ℝ)
    let center : ℝ := (p + z ^ 2 / (2 * n)) / (1 + z ^ 2 / n)
    let halfwidth : ℝ := z * Real.sqrt ((p * (1 - p) + z ^ 2 / (4 * n)) / n) / (1 + z ^ 2 / n)
    (max 0 (center - halfwidth), min 1 (center + halfwidth))

/-- The accumulator of run_full_evaluation's aggregation loop (lines 522-540):
valid/error counts, per-metric running totals, and per-metric success counts
for the confidence intervals. -/
structure AggState where
  valid_count : ℕ
  error_count : ℕ
  total_scores : Metric → ℚ
  success_counts : Metric → ℕ

/-- One iteration of the aggregation loop: a hard-failed example only bumps
error_count and is otherwise skipped; a valid example bumps valid_count, adds
each metric's score to its total, and counts the metric as a success when its
score is at least 0.5. -/
def aggStep (st : AggState) (r : ExResult) : AggState :=
  if r.hasError then
    { st with error_count := st.error_count + 1 }
  else
    { valid_count := st.valid_count + 1
      error_count := st.error_count
      total_scores := fun m => st.total_scores m + r.scores.get m
      success_counts := fun m =>
        if 1/2 ≤ r.scores.get m then st.success_counts m + 1 else st.success_counts m }

def initAggState : AggState :=
  { valid_count := 0, error_count := 0, total_scores := fun _ => 0, success_counts := fun _ => 0 }

/-- One confidence-interval record as assembled by run_full_evaluation (the
route later stores lower/upper rounded to 4 decimals; the rounding is
presentation only and not modelled). -/
structure CIRecord where
  lower : ℝ
  upper : ℝ
  successes : ℕ
  total : ℕ

structure EvalAggregates where
  aggregate_scores : Metric → ℚ
  confidence_intervals : Metric → CIRecord
  valid_count : ℕ
  error_count : ℕ

/-- The aggregation of run_full_evaluation (lines 521-572) over the
processed per-example results: average of each metric over non-hard-failed
examples (0 if none), and a Wilson interval per metric whose trial count is
the full result-list length (len(samples)), hard failures included. -/
noncomputable def run_full_evaluation (results : List ExResult) : EvalAggregates :=
  let st := results.foldl aggStep initAggState
  { aggregate_scores := fun m =>
      if 0 < st.valid_count then st.total_scores m / st.valid_count else 0
    confidence_intervals := fun m =>
      let lu := calculate_wilson_score (st.success_counts m) results.length (95/100)
      ⟨lu.1, lu.2, st.success_counts m, results.length⟩
    valid_count := st.valid_count
    error_count := st.error_count }

/-- The terminal update written by the evaluation background task. -/
structure EvalUpdate where
  status : String
  samples_processed : ℕ
  samples_failed : ℕ
  error_message : Option String
deriving DecidableEq

/-- The result-storing and terminal-status computation of run_eval_task
(routers/evaluations.py, lines 94-157): an example counts toward
error_results when its result dict carries an "error" key, toward
successful_results otherwise; result-row inserts are modelled as succeeding.
`results` is run_full_evaluation's per-example result list, one entry per
sample in order, so `results.length` equals `len(samples)`. -/
def run_eval_task_update (results : List ExResult) : EvalUpdate :=
  let successful_results := results.countP (fun r => !r.hasError)
  let error_results := results.countP (fun r => r.hasError)
  let total_samples := results.length
  if error_results = total_samples then
    ⟨"failed", successful_results, error_results, some "All samples failed evaluation"⟩
  else if 0 < error_results then
    ⟨"completed", successful_results, error_results,
      some (toString error_results ++ "/" ++ toString total_samples ++ " samples had errors")⟩
  else
    ⟨"completed", successful_results, error_results, none⟩

/-! ### Row insertion (routers/datasets.py, add_dataset_rows, lines 145-188)

After the dataset-existence check, the route validates every row against the
dataset's column schema — nested loops over rows then columns, raising 400
"Missing required column: <name>" at the first required column absent from a
row — and only then builds and inserts one sample per row, storing the whole
row as input and lifting an "expected_output" key if present. -/

/-- One dataset_samples row as built by add_dataset_rows.  Row values are a
type parameter: the route never inspects them, only key presence. -/
structure SampleRow (α : Type) where
  input : List (String × α)
  expected_output : Option α
deriving DecidableEq

/-- The inner validation loop over one row: the first schema column (in
order) that is flagged required and absent from the row. -/
def rowMissingRequired {α : Type} (columns : List (String × Bool))
    (row : List (String × α)) : Option String :=
  (columns.find? (fun cd => cd.2 && (row.lookup cd.1).isNone)).map (fun cd => cd.1)

/-- add_dataset_rows: `datasetFound` is the outcome of the dataset lookup,
`column_schema` is `some columns` when the dataset's column_schema is truthy
and has a "columns" key, `rows` the request body, `table` the
dataset_samples table.  Validation runs in full before any insert; inserts
are modelled as succeeding. -/
def add_dataset_rows {α : Type} (datasetFound : Bool)
    (column_schema : Option (List (String × Bool)))
    (rows : List (List (String × α))) (table : List (SampleRow α)) :
    List (SampleRow α) × Except HttpErr String :=
  if !datasetFound then
    (table, .error ⟨404, "Dataset not found"⟩)
  else
    match column_schema with
    | some columns =>
      match rows.findSome? (rowMissingRequired columns) with
      | some col => (table, .error ⟨400, "Missing required column: " ++ col⟩)
      | none =>
        (table ++ rows.map (fun r => ⟨r, r.lookup "expected_output"⟩),
         .ok (toString rows.length ++ " rows added"))
    | none =>
      (table ++ rows.map (fun r => ⟨r, r.lookup "expected_output"⟩),
       .ok (toString rows.length ++ " rows added"))

/-! ### LLM client retry loop (services/llm_client.py, call_llm, lines 40-166)

The outside world is modelled as a script assigning each attempt index its
outcome: an HTTP response (status, content, body) or a timeout / network
error.  Sleeps have no observable effect; the backoff value is still
threaded to mirror the loop.  The `except Exception: break` arm for
exceptions other than httpx errors and LLMError has no counterpart in the
script and is not modelled. -/

inductive LLMAttempt where
  | response (status : Nat) (content : String) (body : String)
  | timeout (msg : String)
  | netError (msg : String)

/-- The payload of the LLMError exception. -/
structure LLMErrorInfo where
  message : String
  status_code : Option Nat
  response_body : Option String
deriving DecidableEq

/-- The `for attempt in range(retry_count)` loop of call_llm.  `remaining`
counts the attempts left, `attempt` the current index, `backoff` the current
delay, `lastError` the `str(last_error)` of the last timeout/network error.
HTTP 200 with nonempty content returns it; 200 with empty content raises
LLMError("LLM returned empty content", status_code=200), which the
`except LLMError: raise` clause re-raises out of the loop; 429 and 5xx sleep
and retry with doubled backoff capped at 30.0; any other status raises
LLMError immediately with the status and body; timeouts and network errors
record the error, sleep and retry.  When the loop ends, call_llm raises an
LLMError naming the attempt count and the last recorded error. -/
def callLlmGo (script : Nat → LLMAttempt) (retry_count : Nat) :
    Nat → Nat → ℚ → Option String → Except LLMErrorInfo String
  | 0, _, _, lastError =>
    .error ⟨"LLM call failed after " ++ toString retry_count ++ " attempts"
        ++ (match lastError with
            | some m => ": " ++ m
            | none => ""), none, none⟩
  | remaining + 1, attempt, backoff, lastError =>
    match script attempt with
    | .response status content body =>
      if status = 200 then
        if content = "" then
          .error ⟨"LLM returned empty content", some 200, none⟩
        else
          .ok content
      else if status = 429 then
        callLlmGo script retry_count remaining (attempt + 1) (min (backoff * 2) 30) lastError
      else if 500 ≤ status then
        callLlmGo script retry_count remaining (attempt + 1) (min (backoff * 2) 30) lastError
      else
        .error ⟨"LLM API error: " ++ toString status, some status, some body⟩
    | .timeout msg =>
      callLlmGo script retry_count remaining (attempt + 1) (min (backoff * 2) 30) (some msg)
    | .netError msg =>
      callLlmGo script retry_count remaining (attempt + 1) (min (backoff * 2) 30) (some msg)

/-- call_llm: starts at attempt 0 with INITIAL_BACKOFF = 5.0 seconds and no
recorded error. -/
def call_llm (script : Nat → LLMAttempt) (retry_count : Nat) : Except LLMErrorInfo String :=
  callLlmGo script retry_count retry_count 0 5 none

/-- A script whose first attempt is HTTP 200 with empty content and whose
later attempts would succeed with "hello". -/
def emptyThenHello : Nat → LLMAttempt :=
  fun i => if i = 0 then .response 200 "" "" else .response 200 "hello" ""

/-! ### Variable substitution (services/prompt_utils.py, substitute_variables)

Strings are modelled as character lists.  Python str.replace(old, new)
replaces non-overlapping occurrences left to right; listReplace mirrors it
for nonempty `old` (every placeholder "{key}" is nonempty), with an explicit
fuel argument equal to the scanned text's length so that the recursion is
structural.  The `in` containment test of `if placeholder in result` is the
decidable infix relation. -/

def listReplaceFuel (p v : List Char) : Nat → List Char → List Char
  | 0, t => t
  | _ + 1, [] => []
  | fuel + 1, c :: rest =>
    if p ≠ [] ∧ p.isPrefixOf (c :: rest) then
      v ++ listReplaceFuel p v fuel ((c :: rest).drop p.length)
    else
      c :: listReplaceFuel p v fuel rest

/-- Python `t.replace(p, v)` for nonempty `p`: scan left to right, replacing
each non-overlapping occurrence of `p` by `v`. -/
def listReplace (t p v : List Char) : List Char :=
  listReplaceFuel p v t.length t

/-- Specification-side decomposition: the segments of `t` between
non-overlapping occurrences of `p`, scanned left to right (so that
`t.replace(p, v)` is those segments joined with `v`). -/
def splitOnSeqFuel (p : List Char) : Nat → List Char → List (List Char)
  | 0, t => [t]
  | _ + 1, [] => [[]]
  | fuel + 1, c :: rest =>
    if p ≠ [] ∧ p.isPrefixOf (c :: rest) then
      [] :: splitOnSeqFuel p fuel ((c :: rest).drop p.length)
    else
      match splitOnSeqFuel p fuel rest with
      | [] => [[c]]
      | x :: xs => (c :: x) :: xs

def splitOnSeq (t p : List Char) : List (List Char) :=
  splitOnSeqFuel p t.length t

/-- Join segments with a separator. -/
def joinWith (sep : List Char) : List (List Char) → List Char
  | [] => []
  | [x] => x
  | x :: y :: xs => x ++ sep ++ joinWith sep (y :: xs)

/-- The f-string `f"{{{key}}}"`, i.e. "{" ++ key ++ "}". -/
def mkPlaceholder (key : List Char) : List Char :=
  '\x7b' :: (key ++ ['\x7d'])

/-- substitute_variables: iterates the value map in insertion order; for each
(key, value) pair, if "{key}" occurs in the current result, replaces every
occurrence by the value (Python str.replace), else leaves it unchanged.  The
`str(value)` conversion is modelled by taking values as strings. -/
def substitute_variables (template : List Char)
    (vars : List (List Char × List Char)) : List Char :=
  vars.foldl
    (fun result kv =>
      let placeholder := mkPlaceholder kv.1
      if placeholder <:+: result then listReplace result placeholder kv.2
      else result)
    template

/-! ## Theorems -/

/-- Claim C5: the promotion guardrails, applied in order to the best candidate
only, decide promotion exactly as: reject when the average improvement is
below 0.05; otherwise reject when the candidate's format adherence is more
than 0.02 below the baseline's; otherwise reject when the candidate's format
adherence is below 0.90; otherwise approve.  Stated as a characterization of
each outcome of the cascade, plus the three concrete scenarios of spec §8.9
(improvement 0.03 rejected; improvement 0.10 with format adherence 0.85
rejected; improvement 0.10 with format adherence 0.95 and no regression
promoted). -/
theorem c5_promotion_guardrails :
    (∀ imp cfa bfa : ℚ,
      (promotion_guardrails imp cfa bfa = none ↔
        5/100 ≤ imp ∧ bfa - 2/100 ≤ cfa ∧ 9/10 ≤ cfa) ∧
      (promotion_guardrails imp cfa bfa = some .belowImprovementThreshold ↔
        imp < 5/100) ∧
      (promotion_guardrails imp cfa bfa = some .formatRegression ↔
        5/100 ≤ imp ∧ cfa < bfa - 2/100) ∧
      (promotion_guardrails imp cfa bfa = some .belowFormatFloor ↔
        5/100 ≤ imp ∧ bfa - 2/100 ≤ cfa ∧ cfa < 9/10)) ∧
    (∀ cfa bfa : ℚ, promotion_guardrails (3/100) cfa bfa =
      some .belowImprovementThreshold) ∧
    (promotion_guardrails (10/100) (85/100) (85/100) = some .belowFormatFloor) ∧
    (promotion_guardrails (10/100) (95/100) (95/100) = none) := by
  refine ⟨fun imp cfa bfa => ?_, fun cfa bfa => ?_,
    by unfold promotion_guardrails; norm_num,
    by unfold promotion_guardrails; norm_num⟩
  · unfold promotion_guardrails
    split_ifs with h1 h2 h3 <;>
      refine ⟨?_, ?_, ?_, ?_⟩ <;>
      simp_all <;>
      intros <;>
      linarith
  · unfold promotion_guardrails
    rw [if_pos (by norm_num)]

/-- Helper: the rejection loop of step 10 sets exactly the stored ids other
than the winner's to `rejected`. -/
theorem finalize_reject_foldl (ids : List Nat) (t : List CandRow) (w : Nat) :
    ids.foldl
      (fun t cid => if some cid ≠ some w then updateCandStatus t cid .rejected else t)
      t
    = t.map (fun c =>
        if c.id ∈ ids ∧ c.id ≠ w then { c with status := .rejected } else c) := by
  induction ids generalizing t with
  | nil => simp
  | cons a ids ih =>
    rw [List.foldl_cons]
    by_cases ha : a = w
    · subst ha
      rw [if_neg (by simp), ih]
      refine congrArg (List.map · t) (funext fun c => ?_)
      by_cases h2 : c.id ∈ ids <;> by_cases h3 : c.id = a <;> simp [h2, h3]
    · have ha2 : w ≠ a := Ne.symm ha
      rw [if_pos (by simp [ha]), ih, updateCandStatus, List.map_map]
      refine congrArg (List.map · t) (funext fun c => ?_)
      simp only [Function.comp]
      by_cases h1 : c.id = a
      · by_cases h2 : c.id ∈ ids <;> simp [h1, h2, ha, ha2]
      · by_cases h2 : c.id ∈ ids <;> by_cases h3 : c.id = w <;>
          simp [h1, h2, h3, ha, ha2]

/-- Claim C2 counterexample: a run with two stored candidates (ids 1, 2, both
pending, winner 1).  Decision approval (without auto-promote): the code only
updates the winner to accepted and leaves candidate 2 pending, whereas the
claim says every other stored candidate is set to rejected and no candidate
is left pending.  Decision rejection: the code rejects only the candidates
other than the winner and leaves the winner pending, whereas the claim says
every stored candidate including the winner is set to rejected. -/
theorem c2_counterexample :
    improvement_loop_finalize [⟨1, .pending⟩, ⟨2, .pending⟩] (some 1) [1, 2] true false
      = [⟨1, .accepted⟩, ⟨2, .pending⟩] ∧
    improvement_loop_finalize [⟨1, .pending⟩, ⟨2, .pending⟩] (some 1) [1, 2] false false
      = [⟨1, .pending⟩, ⟨2, .rejected⟩] := by
  decide

/-- Claim C2 (amended): at the end of every improvement-loop run whose winner
was stored, if the decision is approval the winning candidate's status is set
to promoted when auto_promote was requested and accepted otherwise while
every other stored candidate keeps its pending status; if the decision is
rejection, every stored candidate other than the winner is set to rejected
and the winner keeps its pending status. -/
theorem c2_candidate_statuses (table : List CandRow) (w : Nat) (storedIds : List Nat)
    (should auto : Bool) (hids : ∀ c ∈ table, c.id ∈ storedIds) :
    improvement_loop_finalize table (some w) storedIds should auto =
      table.map (fun c =>
        if should then
          (if c.id = w then { c with status := if auto then .promoted else .accepted } else c)
        else
          (if c.id = w then c else { c with status := .rejected })) := by
  cases should with
  | true => simp [improvement_loop_finalize, updateCandStatus]
  | false =>
    rw [improvement_loop_finalize, if_neg (by simp), finalize_reject_foldl]
    refine List.map_congr_left fun c hc => ?_
    by_cases h3 : c.id = w <;> simp [h3, hids c hc]

/-- Claim C2 witness: the amended statement evaluated on the concrete
two-candidate rejection run. -/
theorem c2_candidate_statuses_witness :
    improvement_loop_finalize [⟨1, .pending⟩, ⟨2, .pending⟩] (some 1) [1, 3, 2] false true
      = [⟨1, .pending⟩, ⟨2, .rejected⟩] := by
  rw [c2_candidate_statuses _ 1 _ false true (by decide)]
  decide

/-- Claim C1: the improve route cannot return the improvement-loop result:
the router passes keyword arguments `evaluation_strategy` and
`base_version_id` that `run_improvement_loop` does not accept, so binding
raises `TypeError` and the route's `except` converts it into HTTP 500 on
every request, whatever the loop body would have produced. -/
theorem c1_improve_route_always_500 :
    ∀ loopBody : Except String ImproveResult,
      improve_prompt loopBody =
        .error ⟨500, "run_improvement_loop got an unexpected keyword argument: evaluation_strategy"⟩ := by
  intro loopBody
  rfl

/-- Claim C9: calling the activate-version route on an existing prompt with a
version id that resolves to no row returns 404 "Version not found" only after
the deactivate-all write has committed: the resulting table is the original
with every version of the prompt deactivated, so the prompt is left with zero
active versions. -/
theorem c9_activate_version_not_atomic (prompts : List Nat)
    (versions : List VersionRow) (pid vid : Nat)
    (hp : pid ∈ prompts) (hv : ∀ r ∈ versions, r.id ≠ vid) :
    activate_version prompts versions pid vid =
      (versions.map
        (fun r => if r.prompt_id = pid then { r with is_active := false } else r),
       .error ⟨404, "Version not found"⟩) ∧
    ((activate_version prompts versions pid vid).1.filter
        (fun r => r.prompt_id = pid && r.is_active)).length = 0 := by
  have hfilter : (versions.filter (fun r => r.id = vid)).isEmpty := by
    rw [List.isEmpty_iff, List.filter_eq_nil]
    intro r hr
    simpa using hv r hr
  have hmap : (versions.map
      (fun r => if r.prompt_id = pid then { r with is_active := false } else r)).map
        (fun r => if r.id = vid then { r with is_active := true } else r)
      = versions.map
        (fun r => if r.prompt_id = pid then { r with is_active := false } else r) := by
    rw [List.map_map]
    refine List.map_congr_left fun r hr => ?_
    have hid : r.id ≠ vid := hv r hr
    by_cases h1 : r.prompt_id = pid <;> simp [Function.comp, h1, hid]
  have hmain : activate_version prompts versions pid vid =
      (versions.map
        (fun r => if r.prompt_id = pid then { r with is_active := false } else r),
       .error ⟨404, "Version not found"⟩) := by
    rw [activate_version, if_pos hp]
    simp only [hmap, hfilter, if_pos]
  refine ⟨hmain, ?_⟩
  rw [hmain]
  simp only [List.length_eq_zero, List.filter_eq_nil, List.mem_map]
  rintro r ⟨s, hs, rfl⟩
  by_cases h1 : s.prompt_id = pid <;> simp [h1]

/-- Claim C9 witness: a prompt (id 7) with two versions (ids 1 active, 2
inactive) and a dangling version id 99: the route deactivates both versions
and then reports 404. -/
theorem c9_activate_version_not_atomic_witness :
    activate_version [7] [⟨1, 7, true⟩, ⟨2, 7, false⟩] 7 99 =
      ([⟨1, 7, false⟩, ⟨2, 7, false⟩], .error ⟨404, "Version not found"⟩) := by
  have h := c9_activate_version_not_atomic [7] [⟨1, 7, true⟩, ⟨2, 7, false⟩] 7 99
    (by decide) (by decide)
  rw [h.1]
  rfl

/-- Claim C10: deleting a dataset row returns the success message whenever the
dataset exists, regardless of whether any sample with the given row id exists
in that dataset; in particular when no sample matches, the table is unchanged
and the response is still the success message, never an error. -/
theorem c10_delete_row_never_404 (datasets : List Nat) (samples : List DSampleRow)
    (did rid : Nat) (hd : did ∈ datasets) :
    (delete_dataset_row datasets samples did rid).2 = .ok "Row deleted" ∧
    ((∀ s ∈ samples, ¬(s.id = rid ∧ s.dataset_id = did)) →
      delete_dataset_row datasets samples did rid = (samples, .ok "Row deleted")) := by
  constructor
  · rw [delete_dataset_row, if_pos hd]
  · intro hnone
    rw [delete_dataset_row, if_pos hd]
    have hsame : samples.filter (fun s => !(s.id = rid && s.dataset_id = did)) = samples := by
      rw [List.filter_eq_self]
      intro s hs
      have h2 := hnone s hs
      simp only [not_and] at h2
      by_cases h3 : s.id = rid
      · simp [h3, h2 h3]
      · simp [h3]
    rw [hsame]

/-- Claim C10 witness: dataset 3 exists, the sample table holds only a row of
dataset 4; deleting row id 5 from dataset 3 succeeds and changes nothing. -/
theorem c10_delete_row_never_404_witness :
    (delete_dataset_row [3] [⟨5, 4⟩] 3 5).2 = .ok "Row deleted" ∧
    delete_dataset_row [3] [⟨5, 4⟩] 3 5 = ([⟨5, 4⟩], .ok "Row deleted") := by
  have h := c10_delete_row_never_404 [3] [⟨5, 4⟩] 3 5 (by decide)
  exact ⟨h.1, h.2 (by decide)⟩

/-- Claim C4: for every evaluation background run over n samples, if some but
not all examples error, the terminal status is "completed" with
samples_failed the number of errored examples, samples_processed the number
of successful examples, and error_message "<errors>/<n> samples had errors";
if every example errors the terminal status is "failed". -/
theorem c4_partial_batch_failure (results : List ExResult) :
    (0 < results.countP (fun r => r.hasError) →
      results.countP (fun r => r.hasError) < results.length →
      run_eval_task_update results =
        ⟨"completed",
         results.length - results.countP (fun r => r.hasError),
         results.countP (fun r => r.hasError),
         some (toString (results.countP (fun r => r.hasError)) ++ "/" ++
           toString results.length ++ " samples had errors")⟩) ∧
    (results.countP (fun r => r.hasError) = results.length →
      (run_eval_task_update results).status = "failed") := by
  have hsum : results.countP (fun r => r.hasError)
      + results.countP (fun r => !r.hasError) = results.length := by
    simpa using
      (List.length_eq_countP_add_countP (p := fun r : ExResult => r.hasError)
        (l := results)).symm
  constructor
  · intro h1 h2
    have hproc : results.countP (fun r => !r.hasError)
        = results.length - results.countP (fun r => r.hasError) := by omega
    rw [run_eval_task_update]
    rw [if_neg (by omega), if_pos h1, hproc]
  · intro h
    rw [run_eval_task_update, if_pos h]

/-- Claim C4 witness: 5 samples of which 2 error (the spec's own example)
yield status completed, samples_processed 3, samples_failed 2 and the note
"2/5 samples had errors". -/
theorem c4_partial_batch_failure_witness :
    run_eval_task_update
      [⟨true, errorScores⟩, ⟨false, ⟨1, 1, 1, 1, 1, 1⟩⟩, ⟨true, errorScores⟩,
       ⟨false, ⟨1, 1, 1, 1, 1, 1⟩⟩, ⟨false, ⟨1, 1, 1, 1, 1, 1⟩⟩] =
      ⟨"completed", 3, 2, some "2/5 samples had errors"⟩ ∧
    (run_eval_task_update (List.replicate 5 ⟨true, errorScores⟩)).status = "failed" := by
  constructor
  · have h := (c4_partial_batch_failure
      [⟨true, errorScores⟩, ⟨false, ⟨1, 1, 1, 1, 1, 1⟩⟩, ⟨true, errorScores⟩,
       ⟨false, ⟨1, 1, 1, 1, 1, 1⟩⟩, ⟨false, ⟨1, 1, 1, 1, 1, 1⟩⟩]).1 (by decide) (by decide)
    exact h
  · exact (c4_partial_batch_failure (List.replicate 5 ⟨true, errorScores⟩)).2 (by decide)

/-- Helper: the success-count accumulator of the aggregation loop counts the
non-hard-failed examples whose score for the metric is at least 0.5. -/
theorem agg_success_counts_eq (results : List ExResult) (st : AggState) (m : Metric) :
    (results.foldl aggStep st).success_counts m
      = st.success_counts m
        + results.countP (fun r => !r.hasError && decide ((1:ℚ)/2 ≤ r.scores.get m)) := by
  induction results generalizing st with
  | nil => simp
  | cons r rs ih =>
    rw [List.foldl_cons, ih, List.countP_cons]
    by_cases h : r.hasError
    · have hp : (!r.hasError && decide ((1:ℚ)/2 ≤ r.scores.get m)) = false := by
        rw [h]; rfl
      rw [hp]
      simp only [aggStep, if_pos h]
      simp
    · have hn : (!r.hasError) = true := by simp [h]
      by_cases h2 : (1:ℚ)/2 ≤ r.scores.get m
      · have hp : (!r.hasError && decide ((1:ℚ)/2 ≤ r.scores.get m)) = true := by
          rw [hn, decide_eq_true h2]; rfl
        rw [hp]
        simp only [aggStep, if_neg h]
        rw [if_pos h2]
        simp
        omega
      · have hp : (!r.hasError && decide ((1:ℚ)/2 ≤ r.scores.get m)) = false := by
          rw [hn, decide_eq_false h2]; rfl
        rw [hp]
        simp only [aggStep, if_neg h]
        rw [if_neg h2]
        simp

/-- Helper: closed form of the Wilson interval at 8 successes of 10 trials. -/
theorem wilson_8_10_closed : calculate_wilson_score 8 10 (95/100)
    = (max 0 ((12401:ℝ)/17302 - 49 * Real.sqrt 6401 / 17302),
       min 1 ((12401:ℝ)/17302 + 49 * Real.sqrt 6401 / 17302)) := by
  have h500 : Real.sqrt 250000 = 500 := by
    rw [show (250000:ℝ) = 500 ^ 2 by norm_num, Real.sqrt_sq (by norm_num)]
  unfold calculate_wilson_score
  norm_num
  rw [h500]
  constructor <;> ring_nf

/-- Claim C6: calculate_wilson_score uses z = 1.96 at the 95% level with the
claimed center and half-width formulas and clamps both bounds to [0, 1]
(stated as agreement with wilson_spec, the formula transcribed from the
claim); for 0 trials it returns exactly (0.0, 1.0); for 8 successes of 10
trials the lower bound is strictly below 0.8 and the upper bound strictly
above 0.8, both within [0, 1]; and run_full_evaluation's per-metric interval
counts an example as a success when the example did not hard-fail and its
score is at least 0.5, over a trial count equal to the number of hard-failed
examples plus the number of remaining examples (the full sample count). -/
theorem c6_wilson_interval :
    (∀ s c, calculate_wilson_score s 0 c = (0, 1)) ∧
    (∀ s t, calculate_wilson_score s t (95/100) = wilson_spec s t) ∧
    ((calculate_wilson_score 8 10 (95/100)).1 < 8/10 ∧
     (8:ℝ)/10 < (calculate_wilson_score 8 10 (95/100)).2 ∧
     0 ≤ (calculate_wilson_score 8 10 (95/100)).1 ∧
     (calculate_wilson_score 8 10 (95/100)).1 ≤ 1 ∧
     0 ≤ (calculate_wilson_score 8 10 (95/100)).2 ∧
     (calculate_wilson_score 8 10 (95/100)).2 ≤ 1) ∧
    (∀ (results : List ExResult) (m : Metric),
      (run_full_evaluation results).confidence_intervals m =
        { lower := (calculate_wilson_score
            (results.countP (fun r => !r.hasError && decide ((1:ℚ)/2 ≤ r.scores.get m)))
            (results.countP (fun r => r.hasError) + results.countP (fun r => !r.hasError))
            (95/100)).1
          upper := (calculate_wilson_score
            (results.countP (fun r => !r.hasError && decide ((1:ℚ)/2 ≤ r.scores.get m)))
            (results.countP (fun r => r.hasError) + results.countP (fun r => !r.hasError))
            (95/100)).2
          successes := results.countP (fun r => !r.hasError && decide ((1:ℚ)/2 ≤ r.scores.get m))
          total := results.countP (fun r => r.hasError) + results.countP (fun r => !r.hasError) }) := by
  refine ⟨fun s c => by unfold calculate_wilson_score; simp, fun s t => ?_, ?_, ?_⟩
  · unfold calculate_wilson_score wilson_spec
    by_cases h : t = 0 <;> simp [h]
  · rw [wilson_8_10_closed]
    have h80 : (80:ℝ) < Real.sqrt 6401 := (Real.lt_sqrt (by norm_num)).2 (by norm_num)
    have h81 : Real.sqrt 6401 < 81 := (Real.sqrt_lt' (by norm_num)).2 (by norm_num)
    exact ⟨max_lt (by norm_num) (by linarith), lt_min (by norm_num) (by linarith),
      le_max_left _ _, max_le (by norm_num) (by linarith),
      le_min (by norm_num) (by linarith), min_le_left _ _⟩
  · intro results m
    have hlen : results.countP (fun r => r.hasError)
        + results.countP (fun r => !r.hasError) = results.length := by
      simpa using
        (List.length_eq_countP_add_countP (p := fun r : ExResult => r.hasError)
          (l := results)).symm
    have hsucc : (results.foldl aggStep initAggState).success_counts m
        = results.countP (fun r => !r.hasError && decide ((1:ℚ)/2 ≤ r.scores.get m)) := by
      simpa [initAggState] using agg_success_counts_eq results initAggState m
    simp only [run_full_evaluation]
    rw [hsucc, hlen]

/-- Claim C8: for a dataset whose column schema flags a column as required, a
row-insert batch containing any row lacking that column fails with a 400
client error naming a flagged-required column missing from some row (the
first such, in row-then-column order), and the sample table is unchanged; a
batch where every row supplies every required column appends one sample per
row, storing the whole row as input and lifting an "expected_output" key if
present. -/
theorem c8_row_validation {α : Type} (columns : List (String × Bool))
    (rows : List (List (String × α))) (table : List (SampleRow α)) :
    ((∃ c, (c, true) ∈ columns ∧ ∃ row ∈ rows, row.lookup c = none) →
      ∃ c2, (c2, true) ∈ columns ∧ (∃ row ∈ rows, row.lookup c2 = none) ∧
        add_dataset_rows true (some columns) rows table =
          (table, .error ⟨400, "Missing required column: " ++ c2⟩)) ∧
    ((∀ row ∈ rows, ∀ cd ∈ columns, cd.2 = true → (row.lookup cd.1).isSome) →
      add_dataset_rows true (some columns) rows table =
        (table ++ rows.map (fun r => ⟨r, r.lookup "expected_output"⟩),
         .ok (toString rows.length ++ " rows added"))) := by
  constructor
  · rintro ⟨c, hc, row, hrow, hlook⟩
    have hrm : rowMissingRequired columns row ≠ none := by
      rw [rowMissingRequired]
      intro h
      rw [Option.map_eq_none'] at h
      have := List.find?_eq_none.mp h (c, true) hc
      simp [hlook] at this
    cases hfs : rows.findSome? (rowMissingRequired columns) with
    | none =>
      exact absurd (List.findSome?_eq_none_iff.mp hfs row hrow) hrm
    | some c2 =>
      obtain ⟨row2, hrow2, hr2⟩ := List.exists_of_findSome?_eq_some hfs
      rw [rowMissingRequired, Option.map_eq_some'] at hr2
      obtain ⟨cd, hfind, hcd1⟩ := hr2
      have hp := List.find?_some hfind
      have hmem := List.mem_of_find?_eq_some hfind
      rw [Bool.and_eq_true] at hp
      obtain ⟨hreq, hnone⟩ := hp
      have hcd : cd = (c2, true) := by
        obtain ⟨x, y⟩ := cd
        simp only [] at hcd1 hreq
        rw [hcd1, hreq]
      refine ⟨c2, ?_, ⟨row2, hrow2, ?_⟩, ?_⟩
      · rw [← hcd]; exact hmem
      · have := Option.isNone_iff_eq_none.mp hnone
        rw [hcd] at this
        exact this
      · rw [add_dataset_rows]
        simp [hfs]
  · intro hall
    have hfs : rows.findSome? (rowMissingRequired columns) = none := by
      rw [List.findSome?_eq_none_iff]
      intro row hrow
      rw [rowMissingRequired, Option.map_eq_none', List.find?_eq_none]
      intro cd hcd hcontra
      rw [Bool.and_eq_true] at hcontra
      obtain ⟨h1, h2⟩ := hcontra
      have hsome := hall row hrow cd hcd h1
      rw [Option.isNone_iff_eq_none] at h2
      rw [h2] at hsome
      simp at hsome
    rw [add_dataset_rows]
    simp [hfs]

/-- Claim C8 witness: a schema requiring "answer" rejects a batch whose row
lacks it (nothing persisted), and accepts a batch whose row has it, lifting
expected_output. -/
theorem c8_row_validation_witness :
    add_dataset_rows true (some [("answer", true)])
      [[("question", "q1")]] ([] : List (SampleRow String)) =
      ([], .error ⟨400, "Missing required column: answer"⟩) ∧
    add_dataset_rows true (some [("answer", true)])
      [[("answer", "a1"), ("expected_output", "a1")]] ([] : List (SampleRow String)) =
      ([⟨[("answer", "a1"), ("expected_output", "a1")], some "a1"⟩],
       .ok "1 rows added") := by
  constructor
  · obtain ⟨c2, hc2, hex, heq⟩ :=
      (c8_row_validation [("answer", true)] [[("question", "q1")]]
        ([] : List (SampleRow String))).1
        ⟨"answer", by simp, [("question", "q1")], by simp, by decide⟩
    have hc : c2 = "answer" := by simpa using hc2
    rw [hc] at heq
    exact heq
  · exact (c8_row_validation [("answer", true)]
      [[("answer", "a1"), ("expected_output", "a1")]]
      ([] : List (SampleRow String))).2 (by decide)

/-- Claim C3 counterexample: with retry_count 3 and a script whose first
attempt is an HTTP 200 with empty content and whose second attempt would
return "hello", call_llm raises the empty-content LLMError to the caller on
the first attempt; the claimed retry would instead have produced "hello". -/
theorem c3_counterexample :
    call_llm emptyThenHello 3 = .error ⟨"LLM returned empty content", some 200, none⟩ ∧
    call_llm emptyThenHello 3 ≠ .ok "hello" := by
  refine ⟨rfl, fun h => ?_⟩
  rw [show call_llm emptyThenHello 3
      = .error ⟨"LLM returned empty content", some 200, none⟩ from rfl] at h
  exact Except.noConfusion h

/-- Claim C3 (amended): in call_llm, an HTTP 200 response whose content is
empty raises an LLMError ("LLM returned empty content", status 200) that
propagates to the caller immediately — the `except LLMError: raise` clause
re-raises it, so no further attempt is made regardless of retry_count; the
backoff/retry schedule applies only to 429, 5xx, timeouts and network
errors. -/
theorem c3_empty_content_raises_immediately (script : Nat → LLMAttempt)
    (retry_count : Nat) (h1 : 1 ≤ retry_count)
    (h0 : script 0 = .response 200 "" "") :
    call_llm script retry_count
      = .error ⟨"LLM returned empty content", some 200, none⟩ := by
  obtain ⟨r, rfl⟩ : ∃ r, retry_count = r + 1 := ⟨retry_count - 1, by omega⟩
  simp [call_llm, callLlmGo, h0]

/-- Claim C3 witness: the amended statement at a concrete all-empty script
with retry_count 2. -/
theorem c3_empty_content_raises_immediately_witness :
    call_llm (fun _ => .response 200 "" "") 2
      = .error ⟨"LLM returned empty content", some 200, none⟩ :=
  c3_empty_content_raises_immediately (fun _ => .response 200 "" "") 2
    (by norm_num) rfl

/-- Helper: the segment decomposition is never empty. -/
theorem splitOnSeqFuel_ne_nil (p : List Char) (fuel : Nat) (t : List Char) :
    splitOnSeqFuel p fuel t ≠ [] := by
  match fuel, t with
  | 0, t => simp [splitOnSeqFuel]
  | _ + 1, [] => simp [splitOnSeqFuel]
  | fuel + 1, c :: rest =>
    rw [splitOnSeqFuel]
    split
    · simp
    · split <;> simp

theorem joinWith_nil_cons (v : List Char) (l : List (List Char)) (hl : l ≠ []) :
    joinWith v ([] :: l) = v ++ joinWith v l := by
  match l with
  | [] => exact absurd rfl hl
  | x :: xs => rw [joinWith]; simp

theorem joinWith_cons_cons (v : List Char) (c : Char) (x : List Char)
    (xs : List (List Char)) :
    joinWith v ((c :: x) :: xs) = c :: joinWith v (x :: xs) := by
  match xs with
  | [] => rfl
  | y :: ys => rw [joinWith, joinWith]; simp

theorem listReplaceFuel_eq_joinWith (p v : List Char) (hp : p ≠ []) :
    ∀ (fuel : Nat) (t : List Char), t.length ≤ fuel →
      listReplaceFuel p v fuel t = joinWith v (splitOnSeqFuel p fuel t) := by
  intro fuel
  induction fuel with
  | zero =>
    intro t ht
    have : t = [] := List.length_eq_zero.mp (Nat.le_zero.mp ht)
    subst this
    rfl
  | succ fuel ih =>
    intro t ht
    match t with
    | [] => rfl
    | c :: rest =>
      rw [listReplaceFuel, splitOnSeqFuel]
      by_cases h : p ≠ [] ∧ p.isPrefixOf (c :: rest)
      · rw [if_pos h, if_pos h]
        have hplen : 1 ≤ p.length := List.length_pos.mpr hp
        have hdrop : ((c :: rest).drop p.length).length ≤ fuel := by
          simp only [List.length_drop, List.length_cons]
          simp only [List.length_cons] at ht
          omega
        rw [joinWith_nil_cons _ _ (splitOnSeqFuel_ne_nil _ _ _), ih _ hdrop]
      · rw [if_neg h, if_neg h]
        have hrest : rest.length ≤ fuel := by
          simp only [List.length_cons] at ht
          omega
        rw [ih _ hrest]
        cases hsp : splitOnSeqFuel p fuel rest with
        | nil => exact absurd hsp (splitOnSeqFuel_ne_nil _ _ _)
        | cons x xs =>
          rw [joinWith_cons_cons]

theorem splitOnSeqFuel_no_occur (p : List Char) (_hp : p ≠ []) :
    ∀ (fuel : Nat) (t : List Char), t.length ≤ fuel → ¬ (p <:+: t) →
      splitOnSeqFuel p fuel t = [t] := by
  intro fuel
  induction fuel with
  | zero =>
    intro t ht _
    have : t = [] := List.length_eq_zero.mp (Nat.le_zero.mp ht)
    subst this
    rfl
  | succ fuel ih =>
    intro t ht hno
    match t with
    | [] => rfl
    | c :: rest =>
      rw [splitOnSeqFuel]
      have hnpre : ¬ (p ≠ [] ∧ p.isPrefixOf (c :: rest)) := by
        rintro ⟨-, hpre⟩
        exact hno (List.IsPrefix.isInfix (List.isPrefixOf_iff_prefix.mp hpre))
      rw [if_neg hnpre]
      have hrest : rest.length ≤ fuel := by
        simp only [List.length_cons] at ht
        omega
      have hno2 : ¬ (p <:+: rest) := fun h => hno (h.trans (List.suffix_cons c rest).isInfix)
      rw [ih rest hrest hno2]

/-- Helper: no placeholder is the empty string. -/
theorem mkPlaceholder_ne_nil (key : List Char) : mkPlaceholder key ≠ [] := by
  simp [mkPlaceholder]

theorem substitute_step_eq (result : List Char) (kv : List Char × List Char) :
    (if (mkPlaceholder kv.1) <:+: result
     then listReplace result (mkPlaceholder kv.1) kv.2
     else result)
    = joinWith kv.2 (splitOnSeq result (mkPlaceholder kv.1)) := by
  by_cases h : (mkPlaceholder kv.1) <:+: result
  · rw [if_pos h, listReplace, splitOnSeq,
      listReplaceFuel_eq_joinWith _ _ (mkPlaceholder_ne_nil _) _ _ le_rfl]
  · rw [if_neg h, splitOnSeq,
      splitOnSeqFuel_no_occur _ (mkPlaceholder_ne_nil _) _ _ le_rfl h]
    rfl

/-- Claim C7 (amended): substitute_variables applies, sequentially for each
key in the map's iteration (insertion) order, a full left-to-right
replacement of every occurrence of the literal placeholder "{key}" by the
string form of the key's value — equivalently, it splits the current result
on the placeholder's occurrences and rejoins with the value; a map key whose
placeholder does not occur in the current result leaves it unchanged (so
unmatched map keys are ignored and unmatched template placeholders survive
literally); consequently a placeholder introduced by an earlier substituted
value IS substituted when its key occurs later in the iteration order. -/
theorem c7_sequential_substitution :
    (∀ (template : List Char) (vars : List (List Char × List Char)),
      substitute_variables template vars =
        vars.foldl
          (fun result kv => joinWith kv.2 (splitOnSeq result (mkPlaceholder kv.1)))
          template) ∧
    (∀ (t k v : List Char), ¬ (mkPlaceholder k) <:+: t →
      joinWith v (splitOnSeq t (mkPlaceholder k)) = t) ∧
    (substitute_variables (String.toList "Hi {name}")
        [(String.toList "name", String.toList "Ada")] = String.toList "Hi Ada") ∧
    (substitute_variables (String.toList "Hi {a} and {b}")
        [(String.toList "a", String.toList "One")] = String.toList "Hi One and {b}") := by
  refine ⟨?_, ?_, by decide, by decide⟩
  · intro template vars
    rw [substitute_variables]
    induction vars generalizing template with
    | nil => rfl
    | cons kv kvs ih =>
      rw [List.foldl_cons, List.foldl_cons, ← ih, substitute_step_eq]
  · intro t k v h
    rw [splitOnSeq, splitOnSeqFuel_no_occur _ (mkPlaceholder_ne_nil _) _ _ le_rfl h]
    rfl

/-- Claim C7 counterexample: substituting into "{a}" with the ordered map
[a ↦ "{b}", b ↦ "X"] yields "X": the placeholder "{b}", introduced by
substituting {a}, is itself substituted by the later key b, contradicting
the claim that a placeholder introduced by a substituted value is never
substituted (which would have produced "{b}"). -/
theorem c7_counterexample :
    substitute_variables (String.toList "{a}")
      [(String.toList "a", String.toList "{b}"),
       (String.toList "b", String.toList "X")] = String.toList "X" ∧
    String.toList "X" ≠ String.toList "{b}" := by
  exact ⟨by decide, by decide⟩

/-- Claim C7 witness: the amended statement's no-occurrence clause evaluated
at template "Hi" and key "a". -/
theorem c7_sequential_substitution_witness :
    joinWith (String.toList "One")
      (splitOnSeq (String.toList "Hi") (mkPlaceholder (String.toList "a")))
      = String.toList "Hi" :=
  c7_sequential_substitution.2.1 (String.toList "Hi") (String.toList "a")
    (String.toList "One") (by decide)
